import Mathlib

/-!
Shallow embedding of the LivrariaSenai book-catalog REST service
(`src/API/index.js`: Node + Express + Sequelize + SQLite).

The service exposes CRUD over a single `Livro` (book) table:
  * `GET  /livros`       — list with optional `titulo`/`autor`/`disponivel` query filters,
                           `ORDER BY titulo ASC`;
  * `GET  /livros/:id`   — fetch one by primary key, 404 when absent;
  * `POST /livros`       — `Livro.create(req.body)`;
  * `PUT  /livros/:id` and `PATCH /livros/:id` — `livro.update(req.body)` (merge), 404 when absent;
  * `DELETE /livros/:id` — `livro.destroy()`, 404 when absent.

Modelling decisions, each traceable to the source:
  * The `Livro` model carries the union of the fields of the two revisions of
    `index.js` present in the repository (`emprestadoPara`/`dataDevolucao` in one,
    `descricao`/`imagemUrl`/`linkDownload` in the other); all are `allowNull: true`
    except `titulo`, `autor` (`allowNull: false`) and `disponivel`
    (`allowNull: false, defaultValue: true`).  Dates are modelled as strings.
  * JSON bodies distinguish an absent field from an explicit `null`: a body field has
    type `Option (Option α)` — `none` = absent, `some none` = JSON null,
    `some (some v)` = value.  Sequelize rejects `null` (and an absent value with no
    default) for an `allowNull: false` column with a validation error, which the
    handlers catch and turn into a 500 response, leaving the table unchanged.
  * `id` is `INTEGER PRIMARY KEY AUTOINCREMENT` (Sequelize `autoIncrement` on SQLite):
    the store keeps a counter `nextId` that only ever grows; `create` assigns it and
    increments it, `destroy` does not touch it.
  * Express query strings: `if (req.query.titulo)` is a JS truthiness test, so an empty
    string behaves like an absent parameter, while
    `if (req.query.disponivel !== undefined)` fires for every present value, empty
    string included.
  * `Op.like` with pattern `%q%` is SQLite `LIKE`: `%` matches any run of characters,
    `_` any single character, and ordinary characters compare ASCII-case-insensitively.
  * `ORDER BY titulo ASC` under the BINARY collation orders rows by the UTF-8 bytes of
    `titulo`; UTF-8 byte order coincides with code-point order, i.e. with `≤` on
    `String`.  We realise it as a stable insertion sort of the filtered rows.
-/

/-- One row of the `livros` table (the Sequelize `Livro` model). -/
structure Livro where
  id : Nat
  titulo : String
  autor : String
  ano : Option Int
  genero : Option String
  disponivel : Bool
  emprestadoPara : Option String
  dataDevolucao : Option String
  descricao : Option String
  imagemUrl : Option String
  linkDownload : Option String
deriving Repr, DecidableEq

/-- A JSON request body for create/update.  Outer `Option`: present in the JSON object
or not; inner `Option`: JSON `null` or an actual value. -/
structure LivroBody where
  titulo : Option (Option String) := none
  autor : Option (Option String) := none
  ano : Option (Option Int) := none
  genero : Option (Option String) := none
  disponivel : Option (Option Bool) := none
  emprestadoPara : Option (Option String) := none
  dataDevolucao : Option (Option String) := none
  descricao : Option (Option String) := none
  imagemUrl : Option (Option String) := none
  linkDownload : Option (Option String) := none
deriving Repr, DecidableEq

/-- The SQLite database: the `livros` table in rowid (insertion) order plus the
`AUTOINCREMENT` sequence counter for the `id` column. -/
structure Store where
  nextId : Nat
  rows : List Livro
deriving Repr, DecidableEq

/-- HTTP responses the handlers produce. -/
inductive Resp where
  /-- 200 with a single record as JSON body. -/
  | ok (livro : Livro)
  /-- 200 with a JSON array of records. -/
  | okList (livros : List Livro)
  /-- 200 with `{message: 'Livro removido'}`. -/
  | okMsg
  /-- 201 with the created record. -/
  | created (livro : Livro)
  /-- 404 with `{error: 'Livro não encontrado'}`. -/
  | notFound
  /-- 500 with a generic error body (the catch branches). -/
  | serverError
deriving Repr, DecidableEq

/-- `Livro.findByPk(id)`: primary-key lookup. -/
def findByPk (s : Store) (id : Nat) : Option Livro :=
  s.rows.find? (fun r => r.id == id)

/-- ASCII lower-casing of one character — the folding SQLite `LIKE` applies to both
pattern and text (only `A`–`Z` are folded; everything else is compared verbatim). -/
def asciiLower (c : Char) : Char :=
  if 'A' ≤ c ∧ c ≤ 'Z' then Char.ofNat (c.toNat + 32) else c

/-- SQLite `LIKE` pattern matching: `%` matches any (possibly empty) run of characters
(i.e. the rest of the pattern must match some suffix of the text), `_` matches exactly
one character, other characters match ASCII-case-insensitively. -/
def likeMatch : List Char → List Char → Bool
  | [], s => s.isEmpty
  | a :: ps, s =>
    if a = '%' then
      s.tails.any (fun t => likeMatch ps t)
    else
      match s with
      | [] => false
      | c :: s2 => (if a = '_' then true else asciiLower a == asciiLower c) && likeMatch ps s2

/-- The pattern the list handler builds for a `titulo`/`autor` query value: `%q%`. -/
def likePattern (q : String) : List Char :=
  '%' :: (q.data ++ ['%'])

/-- ASCII-lower-cased character content of a string. -/
def lowerData (s : String) : List Char :=
  s.data.map asciiLower

/-- `leadsWith q s`: `q` is an initial run of `s` (spec-side notion). -/
def leadsWith : List Char → List Char → Bool
  | [], _ => true
  | _ :: _, [] => false
  | a :: q2, c :: s2 => a == c && leadsWith q2 s2

/-- `hasSub q s`: `q` occurs contiguously inside `s` (spec-side notion). -/
def hasSub (q : List Char) : List Char → Bool
  | [] => q.isEmpty
  | c :: s2 => leadsWith q (c :: s2) || hasSub q s2

/-- Spec-side definition of the filter the spec describes: the query occurs as a
substring of the field, compared ASCII-case-insensitively. -/
def containsCI (q s : String) : Bool :=
  hasSub (lowerData q) (lowerData s)

/-- The query parameters of `GET /livros` (each absent or a string). -/
structure ReqQuery where
  titulo : Option String := none
  autor : Option String := none
  disponivel : Option String := none
deriving Repr, DecidableEq

/-- The `where` object built by `GET /livros`, as a row predicate:
`if (req.query.titulo) where.titulo = {[Op.like]: `%q%`}` (truthiness: empty string
adds no condition), likewise for `autor`; and
`if (req.query.disponivel !== undefined) where.disponivel = req.query.disponivel === 'true'`. -/
def matchesWhere (q : ReqQuery) (r : Livro) : Bool :=
  (match q.titulo with
   | none => true
   | some t => if t = "" then true else likeMatch (likePattern t) r.titulo.data) &&
  (match q.autor with
   | none => true
   | some a => if a = "" then true else likeMatch (likePattern a) r.autor.data) &&
  (match q.disponivel with
   | none => true
   | some d => r.disponivel == (d == "true"))

/-- SQLite BINARY collation on text values: lexicographic comparison of the UTF-8
bytes, which coincides with lexicographic comparison of the code points. -/
def charListLe : List Char → List Char → Bool
  | [], _ => true
  | _ :: _, [] => false
  | a :: as, b :: bs =>
    if a < b then true
    else if a = b then charListLe as bs
    else false

/-- `ORDER BY titulo ASC` comparison between two rows. -/
def tituloLe (x y : Livro) : Bool :=
  charListLe x.titulo.data y.titulo.data

/-- The row list returned by `Livro.findAll({where, order: [[titulo, ASC]]})`:
the rows satisfying `where`, sorted by `titulo` ascending (stable). -/
def listLivros (q : ReqQuery) (s : Store) : List Livro :=
  List.insertionSort (fun a b => tituloLe a b = true) (s.rows.filter (matchesWhere q))

/-- Handler of `GET /livros`. -/
def getLivros (q : ReqQuery) (s : Store) : Resp :=
  Resp.okList (listLivros q s)

/-- Handler of `GET /livros/:id`. -/
def getLivroById (id : Nat) (s : Store) : Resp :=
  match findByPk s id with
  | none => Resp.notFound
  | some livro => Resp.ok livro

/-- `Livro.create(body)`: resolves each column from the body — an `allowNull: false`
column must end up non-null (`disponivel` falls back to its default `true` when the
field is absent), nullable columns become `null` when absent or null.  On success the
new row gets the next `AUTOINCREMENT` id and is appended; on a `notNull` violation
Sequelize throws and nothing is inserted. -/
def livroCreate (b : LivroBody) (s : Store) : Option (Livro × Store) :=
  match b.titulo.join, b.autor.join,
        (match b.disponivel with
         | none => some true
         | some v => v) with
  | some t, some a, some d =>
    let novo : Livro :=
      { id := s.nextId, titulo := t, autor := a, ano := b.ano.join, genero := b.genero.join,
        disponivel := d, emprestadoPara := b.emprestadoPara.join,
        dataDevolucao := b.dataDevolucao.join, descricao := b.descricao.join,
        imagemUrl := b.imagemUrl.join, linkDownload := b.linkDownload.join }
    some (novo, { nextId := s.nextId + 1, rows := s.rows ++ [novo] })
  | _, _, _ => none

/-- Handler of `POST /livros`: 201 with the new record, or the catch branch (500)
when `Livro.create` throws. -/
def postLivros (b : LivroBody) (s : Store) : Resp × Store :=
  match livroCreate b s with
  | some (novo, s2) => (Resp.created novo, s2)
  | none => (Resp.serverError, s)

/-- `livro.update(body)`: overwrite exactly the fields present in the body, keep the
rest.  Setting an `allowNull: false` column to `null` is a validation error: the save
throws and the row is unchanged. -/
def applyBody (b : LivroBody) (l : Livro) : Option Livro :=
  match (match b.titulo with
         | none => some l.titulo
         | some v => v),
        (match b.autor with
         | none => some l.autor
         | some v => v),
        (match b.disponivel with
         | none => some l.disponivel
         | some v => v) with
  | some t, some a, some d =>
    some { l with
      titulo := t, autor := a, disponivel := d,
      ano := (match b.ano with
              | none => l.ano
              | some v => v),
      genero := (match b.genero with
                 | none => l.genero
                 | some v => v),
      emprestadoPara := (match b.emprestadoPara with
                         | none => l.emprestadoPara
                         | some v => v),
      dataDevolucao := (match b.dataDevolucao with
                        | none => l.dataDevolucao
                        | some v => v),
      descricao := (match b.descricao with
                    | none => l.descricao
                    | some v => v),
      imagemUrl := (match b.imagemUrl with
                    | none => l.imagemUrl
                    | some v => v),
      linkDownload := (match b.linkDownload with
                       | none => l.linkDownload
                       | some v => v) }
  | _, _, _ => none

/-- Replace the row with the given id in the table (the `UPDATE ... WHERE id = :id`
a successful `livro.update` issues). -/
def replaceRow (s : Store) (id : Nat) (upd : Livro) : Store :=
  { s with rows := s.rows.map (fun r => if r.id == id then upd else r) }

/-- The merged record a successful `livro.update(body)` leaves behind, field by field:
a field present in the body overwrites, an absent field keeps the row's value
(for the `allowNull: false` columns the present-with-`null` case is excluded by the
validation error path, so the fallback to the row's value is never taken there). -/
def mergeLivro (b : LivroBody) (l : Livro) : Livro :=
  { id := l.id,
    titulo := (match b.titulo with
               | some (some v) => v
               | _ => l.titulo),
    autor := (match b.autor with
              | some (some v) => v
              | _ => l.autor),
    disponivel := (match b.disponivel with
                   | some (some v) => v
                   | _ => l.disponivel),
    ano := (match b.ano with
            | none => l.ano
            | some v => v),
    genero := (match b.genero with
               | none => l.genero
               | some v => v),
    emprestadoPara := (match b.emprestadoPara with
                       | none => l.emprestadoPara
                       | some v => v),
    dataDevolucao := (match b.dataDevolucao with
                      | none => l.dataDevolucao
                      | some v => v),
    descricao := (match b.descricao with
                  | none => l.descricao
                  | some v => v),
    imagemUrl := (match b.imagemUrl with
                  | none => l.imagemUrl
                  | some v => v),
    linkDownload := (match b.linkDownload with
                     | none => l.linkDownload
                     | some v => v) }

/-- Handler of `PUT /livros/:id`: 404 when the id is absent, otherwise merge-update
and answer 200 with the updated record; the catch branch gives 500. -/
def putLivro (id : Nat) (b : LivroBody) (s : Store) : Resp × Store :=
  match findByPk s id with
  | none => (Resp.notFound, s)
  | some livro =>
    match applyBody b livro with
    | some upd => (Resp.ok upd, replaceRow s id upd)
    | none => (Resp.serverError, s)

/-- Handler of `PATCH /livros/:id` — the source duplicates the PUT handler verbatim. -/
def patchLivro (id : Nat) (b : LivroBody) (s : Store) : Resp × Store :=
  match findByPk s id with
  | none => (Resp.notFound, s)
  | some livro =>
    match applyBody b livro with
    | some upd => (Resp.ok upd, replaceRow s id upd)
    | none => (Resp.serverError, s)

/-- Handler of `DELETE /livros/:id`: 404 when the id is absent, otherwise
`livro.destroy()` (`DELETE FROM livros WHERE id = :id`) and a confirmation message. -/
def deleteLivro (id : Nat) (s : Store) : Resp × Store :=
  match findByPk s id with
  | none => (Resp.notFound, s)
  | some _ => (Resp.okMsg, { s with rows := s.rows.filter (fun r => r.id != id) })

/-- Store well-formedness: every row id was assigned by the counter, so it is below
`nextId`.  Holds for the empty database Sequelize creates and is preserved by every
handler. -/
def WF (s : Store) : Prop :=
  ∀ r ∈ s.rows, r.id < s.nextId

instance : DecidablePred WF := fun s =>
  inferInstanceAs (Decidable (∀ r ∈ s.rows, r.id < s.nextId))

/-- A client-visible sequence of mutating requests against the store
(for the id-freshness invariant). -/
inductive StoreOp where
  | create (b : LivroBody)
  | del (id : Nat)
deriving Repr

/-- The ids handed out by the service along a sequence of create/delete requests,
in order of assignment (a failed create hands out no id). -/
def createdIds (s : Store) : List StoreOp → List Nat
  | [] => []
  | StoreOp.create b :: ops =>
    match livroCreate b s with
    | some (novo, s2) => novo.id :: createdIds s2 ops
    | none => createdIds s ops
  | StoreOp.del id :: ops => createdIds (deleteLivro id s).2 ops

/-- The concrete create payload the pass-through witness uses:
`{titulo: "T", autor: "A", disponivel: false}`. -/
def bodyTAFalse : LivroBody :=
  { titulo := some (some "T"), autor := some (some "A"), disponivel := some (some false) }

/-! ### The collation `tituloLe` agrees with `≤` on `String` -/

lemma charListLe_iff_not_lex (a b : List Char) :
    charListLe a b = true ↔ ¬ List.Lex (fun x y : Char => x < y) b a := by
  induction a generalizing b with
  | nil =>
    simp only [charListLe]
    constructor
    · intro _ h
      cases h
    · intro _
      trivial
  | cons x as ih =>
    cases b with
    | nil =>
      simp only [charListLe]
      constructor
      · intro h
        exact absurd h (by simp)
      · intro h
        exact absurd List.Lex.nil h
    | cons y bs =>
      simp only [charListLe]
      split_ifs with h1 h2
      · constructor
        · intro _ hlex
          cases hlex with
          | rel h => exact (asymm h h1).elim
          | cons h => exact (lt_irrefl x h1).elim
        · intro _
          trivial
      · subst h2
        rw [ih bs]
        constructor
        · intro h hlex
          cases hlex with
          | rel hr => exact lt_irrefl x hr
          | cons hc => exact h hc
        · intro h hc
          exact h (List.Lex.cons hc)
      · constructor
        · intro h
          exact absurd h (by simp)
        · intro h
          have hyx : y < x := by
            rcases lt_trichotomy x y with h3 | h3 | h3
            · exact absurd h3 h1
            · exact absurd h3 h2
            · exact h3
          exact absurd (List.Lex.rel hyx) h

lemma tituloLe_le (x y : Livro) : tituloLe x y = true ↔ x.titulo ≤ y.titulo := by
  rw [tituloLe, charListLe_iff_not_lex, String.le_iff_toList_le, ← not_lt]
  constructor
  · intro h hlt
    exact h hlt
  · intro h hl
    exact h hl

instance : IsTotal Livro (fun x y => tituloLe x y = true) :=
  ⟨fun x y => by
    rcases le_total x.titulo y.titulo with h | h
    · exact Or.inl ((tituloLe_le x y).mpr h)
    · exact Or.inr ((tituloLe_le y x).mpr h)⟩

instance : IsTrans Livro (fun x y => tituloLe x y = true) :=
  ⟨fun x y z hxy hyz =>
    (tituloLe_le x z).mpr (le_trans ((tituloLe_le x y).mp hxy) ((tituloLe_le y z).mp hyz))⟩

/-- Membership in the list response is membership in the table plus the `where` filter. -/
lemma mem_listLivros {q : ReqQuery} {s : Store} {b : Livro} :
    b ∈ listLivros q s ↔ b ∈ s.rows ∧ matchesWhere q b = true := by
  unfold listLivros
  rw [(List.perm_insertionSort _ _).mem_iff, List.mem_filter]

/-- **C8.** Every list response is sorted by `titulo` ascending (`≤` on `String`, the
BINARY collation), whatever the insertion order of the rows, and it is a permutation of
the rows matching the filter — in particular a request matching no rows yields `[]`,
not a failure; `getLivros` is a total function, hence deterministic. -/
theorem listing_sorted_permutation (q : ReqQuery) (s : Store) :
    (listLivros q s).Pairwise (fun a b => a.titulo ≤ b.titulo) ∧
    (listLivros q s).Perm (s.rows.filter (matchesWhere q)) ∧
    getLivros q s = Resp.okList (listLivros q s) := by
  refine ⟨?_, List.perm_insertionSort _ _, rfl⟩
  exact List.Pairwise.imp (fun h => (tituloLe_le _ _).mp h)
    (List.sorted_insertionSort (fun a b => tituloLe a b = true) _)

/-- **C4.** The PUT and PATCH handlers are the same function: for every id, payload
and store they produce the same response and the same final store. -/
theorem put_patch_identical (id : Nat) (b : LivroBody) (s : Store) :
    putLivro id b s = patchLivro id b s := rfl

/-! ### SQLite `LIKE '%q%'` versus case-insensitive substring containment -/

lemma leadsWith_iff (q s : List Char) : leadsWith q s = true ↔ ∃ v, s = q ++ v := by
  induction q generalizing s with
  | nil => simp [leadsWith]
  | cons a q2 ih =>
    cases s with
    | nil => simp [leadsWith]
    | cons c s2 =>
      simp only [leadsWith, Bool.and_eq_true, beq_iff_eq, ih, List.cons_append]
      constructor
      · rintro ⟨rfl, v, rfl⟩
        exact ⟨v, rfl⟩
      · rintro ⟨v, h⟩
        injection h with h1 h2
        exact ⟨h1.symm, v, h2⟩

lemma hasSub_iff (q s : List Char) : hasSub q s = true ↔ ∃ u v, s = u ++ q ++ v := by
  induction s with
  | nil =>
    simp only [hasSub, List.isEmpty_iff]
    constructor
    · rintro rfl
      exact ⟨[], [], rfl⟩
    · rintro ⟨u, v, huv⟩
      rcases List.append_eq_nil.mp huv.symm with ⟨h1, h2⟩
      rcases List.append_eq_nil.mp h1 with ⟨_, h3⟩
      exact h3
  | cons c s2 ih =>
    simp only [hasSub, Bool.or_eq_true, leadsWith_iff, ih]
    constructor
    · rintro (⟨v, hv⟩ | ⟨u, v, hv⟩)
      · exact ⟨[], v, by simpa using hv⟩
      · exact ⟨c :: u, v, by simp [hv]⟩
    · rintro ⟨u, v, huv⟩
      cases u with
      | nil =>
        exact Or.inl ⟨v, by simpa using huv⟩
      | cons x u2 =>
        rw [List.cons_append, List.cons_append] at huv
        injection huv with h1 h2
        exact Or.inr ⟨u2, v, by rw [h2]⟩

lemma likeMatch_percent (ps s : List Char) :
    likeMatch ('%' :: ps) s = true ↔ ∃ u v, s = u ++ v ∧ likeMatch ps v = true := by
  simp only [likeMatch, reduceIte, List.any_eq_true]
  constructor
  · rintro ⟨t, ht, hm⟩
    obtain ⟨u, hu⟩ := (List.mem_tails _ _).mp ht
    exact ⟨u, t, hu.symm, hm⟩
  · rintro ⟨u, v, huv, hm⟩
    exact ⟨v, (List.mem_tails _ _).mpr ⟨u, huv.symm⟩, hm⟩

lemma likeMatch_plain_trailing (q : List Char) (hq : ∀ c ∈ q, c ≠ '%' ∧ c ≠ '_')
    (s : List Char) :
    likeMatch (q ++ ['%']) s = true ↔
      ∃ u v, s = u ++ v ∧ u.map asciiLower = q.map asciiLower := by
  induction q generalizing s with
  | nil =>
    simp only [List.nil_append, List.map_nil]
    constructor
    · intro _
      exact ⟨[], s, rfl, rfl⟩
    · intro _
      rw [likeMatch_percent]
      exact ⟨s, [], by simp, rfl⟩
  | cons a ps ih =>
    obtain ⟨ha1, ha2⟩ := hq a (List.mem_cons_self a ps)
    have hps : ∀ c ∈ ps, c ≠ '%' ∧ c ≠ '_' := fun c hc => hq c (List.mem_cons_of_mem a hc)
    cases s with
    | nil =>
      constructor
      · intro h
        rw [List.cons_append] at h
        simp [likeMatch, if_neg ha1] at h
      · rintro ⟨u, v, huv, hmap⟩
        rcases List.append_eq_nil.mp huv.symm with ⟨rfl, _⟩
        simp at hmap
    | cons c s2 =>
      rw [List.cons_append]
      simp only [likeMatch, if_neg ha1, if_neg ha2, Bool.and_eq_true, beq_iff_eq, ih hps s2]
      constructor
      · rintro ⟨hac, u, v, rfl, hmap⟩
        exact ⟨c :: u, v, rfl, by simp [hmap, hac.symm]⟩
      · rintro ⟨u, v, huv, hmap⟩
        cases u with
        | nil => simp at hmap
        | cons x u2 =>
          rw [List.cons_append] at huv
          injection huv with h1 h2
          subst h1
          simp only [List.map_cons, List.cons.injEq] at hmap
          exact ⟨hmap.1.symm, u2, v, h2, hmap.2⟩

/-- For a wildcard-free query `q`, the handler's `LIKE '%q%'` test is exactly
"the ASCII-lower-cased query occurs inside the ASCII-lower-cased text". -/
lemma likePattern_iff_containsCI (q s : String) (hq : ∀ c ∈ q.data, c ≠ '%' ∧ c ≠ '_') :
    likeMatch (likePattern q) s.data = true ↔ containsCI q s = true := by
  rw [likePattern, likeMatch_percent, containsCI, hasSub_iff]
  constructor
  · rintro ⟨u, v, huv, hm⟩
    obtain ⟨u2, v2, hv, hmap⟩ := (likeMatch_plain_trailing q.data hq v).mp hm
    refine ⟨u.map asciiLower, v2.map asciiLower, ?_⟩
    rw [lowerData, lowerData, huv, hv]
    simp [hmap]
  · rintro ⟨u, v, huv⟩
    rw [lowerData, lowerData] at huv
    obtain ⟨w1, w2, hsp, hw1, hw2⟩ := List.map_eq_append_iff.mp huv
    obtain ⟨w3, w4, hsp2, hw3, hw4⟩ := List.map_eq_append_iff.mp hw1
    refine ⟨w3, w4 ++ w2, ?_, ?_⟩
    · rw [hsp, hsp2, List.append_assoc]
    · exact (likeMatch_plain_trailing q.data hq _).mpr ⟨w4, w2, rfl, hw4⟩

/-- **C9 (amended).** For a non-empty `titulo` (resp. `autor`) query value that contains
no `LIKE` wildcard character (`%` or `_`), the list response contains exactly the rows
whose `titulo` (resp. `autor`) contains the query as a substring, compared
ASCII-case-insensitively — and two queries that agree up to ASCII casing produce the
same response.  (The unamended claim fails for queries containing `%` or `_`, which
SQLite `LIKE` treats as wildcards: see the counterexample.) -/
theorem title_author_filter_ci (q : String) (s : Store) (b : Livro)
    (hq : q ≠ "") (hw : ∀ c ∈ q.data, c ≠ '%' ∧ c ≠ '_') :
    (b ∈ listLivros { titulo := some q } s ↔ b ∈ s.rows ∧ containsCI q b.titulo = true) ∧
    (b ∈ listLivros { autor := some q } s ↔ b ∈ s.rows ∧ containsCI q b.autor = true) ∧
    (∀ q2 : String, (∀ c ∈ q2.data, c ≠ '%' ∧ c ≠ '_') → lowerData q2 = lowerData q →
      listLivros { titulo := some q2 } s = listLivros { titulo := some q } s) := by
  refine ⟨?_, ?_, ?_⟩
  · rw [mem_listLivros]
    simp only [matchesWhere, if_neg hq, Bool.and_eq_true, and_true]
    rw [likePattern_iff_containsCI q b.titulo hw]
  · rw [mem_listLivros]
    simp only [matchesWhere, if_neg hq, Bool.and_eq_true, true_and, and_true]
    rw [likePattern_iff_containsCI q b.autor hw]
  · intro q2 hw2 hl
    have hq2 : q2 ≠ "" := by
      intro h
      subst h
      apply hq
      apply String.ext
      have : List.map asciiLower q.data = [] := by
        rw [lowerData, lowerData] at hl
        simpa using hl.symm
      simpa using List.map_eq_nil_iff.mp this
    unfold listLivros
    congr 1
    apply List.filter_congr
    intro x _
    simp only [matchesWhere, if_neg hq, if_neg hq2]
    have hcc : containsCI q2 x.titulo = containsCI q x.titulo := by
      rw [containsCI, containsCI, hl]
    have hiff : likeMatch (likePattern q2) x.titulo.data = true ↔
        likeMatch (likePattern q) x.titulo.data = true := by
      rw [likePattern_iff_containsCI q2 x.titulo hw2,
        likePattern_iff_containsCI q x.titulo hw, hcc]
    rw [Bool.eq_iff_iff.mpr hiff]

/-- **C9 (witness).** The amended filter theorem applied at the query `"B"` against a
one-row store. -/
theorem title_author_filter_ci_witness :
    ("B" : String) ≠ "" ∧ (∀ c ∈ ("B" : String).data, c ≠ '%' ∧ c ≠ '_') ∧
    ((⟨1, "abc", "X", none, none, true, none, none, none, none, none⟩ : Livro) ∈
        listLivros { titulo := some "B" } ⟨2, [⟨1, "abc", "X", none, none, true, none, none, none, none, none⟩]⟩ ↔
      (⟨1, "abc", "X", none, none, true, none, none, none, none, none⟩ : Livro) ∈
          (⟨2, [⟨1, "abc", "X", none, none, true, none, none, none, none, none⟩]⟩ : Store).rows ∧
        containsCI "B" "abc" = true) :=
  ⟨by decide, by decide,
    (title_author_filter_ci "B" ⟨2, [⟨1, "abc", "X", none, none, true, none, none, none, none, none⟩]⟩
      ⟨1, "abc", "X", none, none, true, none, none, none, none, none⟩ (by decide) (by decide)).1⟩

/-- **C9 (counterexample).** The claim as stated is false: with the single stored book
titled `"abc"` and the query `titulo = "a_c"`, the response contains the book although
`"a_c"` is not a substring of `"abc"` (case-insensitively or otherwise) — the `_` in
the query acts as a `LIKE` wildcard. -/
theorem underscore_wildcard_breaks_substring :
    (⟨1, "abc", "X", none, none, true, none, none, none, none, none⟩ : Livro) ∈
      listLivros { titulo := some "a_c" } ⟨2, [⟨1, "abc", "X", none, none, true, none, none, none, none, none⟩]⟩ ∧
    containsCI "a_c" "abc" = false := by
  decide

/-- **C2 (amended).** Membership in a list response: the three query filters combine
with logical AND, and the `disponivel` filter compares the row's flag against
`value == "true"` whenever the parameter is *present* (with any string value, so any
value other than `"true"` — `"false"`, `"banana"`, `""` — filters for unavailable
books); only an *absent* parameter means "no filter on this field".  (The unamended
claim — any value other than the literals `"true"`/`"false"` means "no filter" — is
refuted by the counterexample.) -/
theorem filter_and_semantics (q : ReqQuery) (s : Store) (b : Livro) :
    b ∈ listLivros q s ↔
      b ∈ s.rows ∧
      (∀ t, q.titulo = some t → t ≠ "" → likeMatch (likePattern t) b.titulo.data = true) ∧
      (∀ a, q.autor = some a → a ≠ "" → likeMatch (likePattern a) b.autor.data = true) ∧
      (∀ d, q.disponivel = some d → b.disponivel = (d == "true")) := by
  rw [mem_listLivros, and_congr_right_iff]
  intro _
  obtain ⟨qt, qa, qd⟩ := q
  simp only [matchesWhere, Bool.and_eq_true]
  constructor
  · rintro ⟨⟨h1, h2⟩, h3⟩
    refine ⟨?_, ?_, ?_⟩
    · rintro t rfl ht
      have h1x : (if t = "" then true else likeMatch (likePattern t) b.titulo.data) = true := h1
      rwa [if_neg ht] at h1x
    · rintro a rfl ha
      have h2x : (if a = "" then true else likeMatch (likePattern a) b.autor.data) = true := h2
      rwa [if_neg ha] at h2x
    · rintro d rfl
      have h3x : (b.disponivel == (d == "true")) = true := h3
      exact beq_iff_eq.mp h3x
  · rintro ⟨h1, h2, h3⟩
    refine ⟨⟨?_, ?_⟩, ?_⟩
    · cases qt with
      | none => rfl
      | some t =>
        show (if t = "" then true else likeMatch (likePattern t) b.titulo.data) = true
        by_cases ht : t = ""
        · rw [if_pos ht]
        · rw [if_neg ht]
          exact h1 t rfl ht
    · cases qa with
      | none => rfl
      | some a =>
        show (if a = "" then true else likeMatch (likePattern a) b.autor.data) = true
        by_cases ha : a = ""
        · rw [if_pos ha]
        · rw [if_neg ha]
          exact h2 a rfl ha
    · cases qd with
      | none => rfl
      | some d =>
        show (b.disponivel == (d == "true")) = true
        exact beq_iff_eq.mpr (h3 d rfl)

/-- **C2 (counterexample).** The claim as stated is false: the store holds one book
with `disponivel = true`, the query carries `disponivel = "banana"` — a value that is
neither `"true"` nor `"false"`, so per the claim no filter should apply and the book
should be listed — yet the handler's response is empty (the present parameter is
compared with `=== 'true'`, yielding a `false` filter). -/
theorem disponivel_other_value_still_filters :
    ("banana" : String) ≠ "true" ∧ ("banana" : String) ≠ "false" ∧
    (⟨1, "abc", "X", none, none, true, none, none, none, none, none⟩ : Livro) ∈
      (⟨2, [⟨1, "abc", "X", none, none, true, none, none, none, none, none⟩]⟩ : Store).rows ∧
    listLivros { disponivel := some "banana" }
      ⟨2, [⟨1, "abc", "X", none, none, true, none, none, none, none, none⟩]⟩ = [] := by
  decide

/-- **C1 (amended).** A create request whose `titulo` or `autor` resolves to SQL `NULL`
— the field is absent from the JSON body, or explicitly `null` — violates the column's
`allowNull: false` constraint: `Livro.create` throws, the handler answers the catch
branch's 500 error, and the store is unchanged.  (The unamended claim also promised
rejection of values that are *empty after trimming*; the code performs no such check —
see the counterexample, where a whitespace-only title is stored verbatim.) -/
theorem create_missing_or_null_rejected (b : LivroBody) (s : Store)
    (h : b.titulo.join = none ∨ b.autor.join = none) :
    postLivros b s = (Resp.serverError, s) := by
  rcases h with h | h
  · simp only [postLivros, livroCreate, h]
  · rcases ht : b.titulo.join with _ | t
    · simp only [postLivros, livroCreate, ht]
    · simp only [postLivros, livroCreate, ht, h]

/-- **C1 (witness).** The amended rejection theorem applied to a body with no `titulo`. -/
theorem create_missing_or_null_rejected_witness :
    (({ autor := some (some "X") } : LivroBody).titulo.join = none ∨
      ({ autor := some (some "X") } : LivroBody).autor.join = none) ∧
    postLivros { autor := some (some "X") } ⟨1, []⟩ = (Resp.serverError, ⟨1, []⟩) :=
  ⟨by decide, create_missing_or_null_rejected { autor := some (some "X") } ⟨1, []⟩ (by decide)⟩

/-- **C1 (counterexample).** The claim as stated is false: a create request whose title
is the whitespace-only string `"   "` (empty after trimming) is *not* rejected — the
handler answers 201 and the record is stored, title verbatim. -/
theorem create_whitespace_title_accepted :
    (∀ c ∈ ("   " : String).data, c = ' ') ∧ ("   " : String) ≠ "" ∧
    postLivros { titulo := some (some "   "), autor := some (some "X") } ⟨1, []⟩ =
      (Resp.created ⟨1, "   ", "X", none, none, true, none, none, none, none, none⟩,
        ⟨2, [⟨1, "   ", "X", none, none, true, none, none, none, none, none⟩]⟩) := by
  decide

/-! ### Freshness of `AUTOINCREMENT` ids -/

lemma livroCreate_shape {b : LivroBody} {s : Store} {novo : Livro} {s2 : Store}
    (h : livroCreate b s = some (novo, s2)) :
    novo.id = s.nextId ∧ s2.nextId = s.nextId + 1 ∧ s2.rows = s.rows ++ [novo] := by
  simp only [livroCreate] at h
  split at h
  · rw [Option.some.injEq, Prod.mk.injEq] at h
    obtain ⟨h1, h2⟩ := h
    subst h1
    subst h2
    exact ⟨rfl, rfl, rfl⟩
  · exact absurd h (by simp)

lemma deleteLivro_nextId (id : Nat) (s : Store) :
    ((deleteLivro id s).2).nextId = s.nextId := by
  unfold deleteLivro
  split <;> rfl

lemma createdIds_lb (ops : List StoreOp) :
    ∀ s : Store, ∀ i ∈ createdIds s ops, s.nextId ≤ i := by
  induction ops with
  | nil =>
    intro s i hi
    simp [createdIds] at hi
  | cons op ops ih =>
    intro s i hi
    cases op with
    | create b =>
      rw [createdIds] at hi
      rcases hc : livroCreate b s with _ | ⟨novo, s2⟩
      · rw [hc] at hi
        exact ih s i hi
      · rw [hc] at hi
        obtain ⟨h1, h2, _⟩ := livroCreate_shape hc
        rcases List.mem_cons.mp hi with rfl | hi2
        · omega
        · have := ih s2 i hi2
          omega
    | del d =>
      rw [createdIds] at hi
      have := ih (deleteLivro d s).2 i hi
      rwa [deleteLivro_nextId] at this

/-- **C5.** Along any sequence of create and delete requests, the ids the service hands
out are pairwise distinct: each successful create's id differs from the id of every
book created before it — including books deleted in between, whose ids are never
reused — because the `AUTOINCREMENT` counter only ever grows. -/
theorem created_ids_nodup (s : Store) (ops : List StoreOp) :
    (createdIds s ops).Nodup := by
  induction ops generalizing s with
  | nil => simp [createdIds]
  | cons op ops ih =>
    cases op with
    | create b =>
      rw [createdIds]
      rcases hc : livroCreate b s with _ | ⟨novo, s2⟩
      · exact ih s
      · obtain ⟨h1, h2, _⟩ := livroCreate_shape hc
        refine List.nodup_cons.mpr ⟨?_, ih s2⟩
        intro hmem
        have := createdIds_lb ops s2 novo.id hmem
        omega
    | del d =>
      rw [createdIds]
      exact ih _

/-! ### Not-found behaviour -/

lemma findByPk_after_delete (id : Nat) (s : Store) :
    findByPk (deleteLivro id s).2 id = none := by
  unfold deleteLivro
  rcases hf : findByPk s id with _ | l
  · exact hf
  · show findByPk { s with rows := s.rows.filter (fun r => r.id != id) } id = none
    rw [findByPk]
    refine List.find?_eq_none.mpr (fun x hx => ?_)
    have := (List.mem_filter.mp hx).2
    simp only [bne_iff_ne, ne_eq] at this
    simp only [beq_iff_eq]
    exact this

/-- **C6.** An id absent from the store is answered with 404 by get, PUT, PATCH and
delete, each leaving the store unchanged; and after any delete of an id (in
particular a successful one, on an arbitrary store `s0`), that id no longer resolves:
a subsequent get answers 404 and a second delete also answers 404 and changes
nothing — no crash. -/
theorem missing_id_notfound (s s0 : Store) (id : Nat) (b : LivroBody)
    (h : findByPk s id = none) :
    getLivroById id s = Resp.notFound ∧
    putLivro id b s = (Resp.notFound, s) ∧
    patchLivro id b s = (Resp.notFound, s) ∧
    deleteLivro id s = (Resp.notFound, s) ∧
    findByPk (deleteLivro id s0).2 id = none ∧
    getLivroById id (deleteLivro id s0).2 = Resp.notFound ∧
    deleteLivro id (deleteLivro id s0).2 = (Resp.notFound, (deleteLivro id s0).2) := by
  have hk := findByPk_after_delete id s0
  refine ⟨by simp only [getLivroById, h], by simp only [putLivro, h],
    by simp only [patchLivro, h], by simp only [deleteLivro, h], hk,
    by simp only [getLivroById, hk], ?_⟩
  generalize (deleteLivro id s0).2 = s1 at hk ⊢
  simp only [deleteLivro, hk]

/-- **C6 (witness).** The not-found theorem applied at id 1: `s` is empty and `s0`
holds exactly one book with id 1, so the delete on `s0` is a successful one. -/
theorem missing_id_notfound_witness :
    findByPk ⟨1, []⟩ 1 = none ∧
    (getLivroById 1 ⟨1, []⟩ = Resp.notFound ∧
      putLivro 1 {} ⟨1, []⟩ = (Resp.notFound, ⟨1, []⟩) ∧
      patchLivro 1 {} ⟨1, []⟩ = (Resp.notFound, ⟨1, []⟩) ∧
      deleteLivro 1 ⟨1, []⟩ = (Resp.notFound, ⟨1, []⟩) ∧
      findByPk (deleteLivro 1 ⟨2, [⟨1, "T", "A", none, none, true, none, none, none, none, none⟩]⟩).2 1 = none ∧
      getLivroById 1 (deleteLivro 1 ⟨2, [⟨1, "T", "A", none, none, true, none, none, none, none, none⟩]⟩).2 = Resp.notFound ∧
      deleteLivro 1 (deleteLivro 1 ⟨2, [⟨1, "T", "A", none, none, true, none, none, none, none, none⟩]⟩).2 =
        (Resp.notFound, (deleteLivro 1 ⟨2, [⟨1, "T", "A", none, none, true, none, none, none, none, none⟩]⟩).2)) :=
  ⟨by decide,
    missing_id_notfound ⟨1, []⟩ ⟨2, [⟨1, "T", "A", none, none, true, none, none, none, none, none⟩]⟩ 1 {} (by decide)⟩

/-! ### Merge-update semantics -/

lemma applyBody_eq_merge (b : LivroBody) (l : Livro)
    (ht : b.titulo ≠ some none) (ha : b.autor ≠ some none) (hd : b.disponivel ≠ some none) :
    applyBody b l = some (mergeLivro b l) := by
  obtain ⟨bt, ba, ban, bg, bd, be, bdd, bde, bi, blk⟩ := b
  rcases bt with _ | ⟨_ | t⟩ <;> rcases ba with _ | ⟨_ | a⟩ <;> rcases bd with _ | ⟨_ | d⟩ <;>
    first
      | rfl
      | exact absurd rfl ht
      | exact absurd rfl ha
      | exact absurd rfl hd

/-- **C3.** PUT and PATCH on an existing book are merge-updates: the affected row
becomes `mergeLivro b l` (the other rows untouched, cf. `replaceRow`), whose fields
satisfy: every field absent from the payload keeps its previous value and every field
present in the payload takes the payload's value — in particular a payload of only
`{disponivel: false}` leaves `genero` (e.g. `"Fantasy"`) unchanged. -/
theorem update_is_merge (id : Nat) (b : LivroBody) (s : Store) (l : Livro)
    (hfind : findByPk s id = some l)
    (ht : b.titulo ≠ some none) (ha : b.autor ≠ some none) (hd : b.disponivel ≠ some none) :
    putLivro id b s = (Resp.ok (mergeLivro b l), replaceRow s id (mergeLivro b l)) ∧
    patchLivro id b s = (Resp.ok (mergeLivro b l), replaceRow s id (mergeLivro b l)) ∧
    (mergeLivro b l).id = l.id ∧
    (b.titulo = none → (mergeLivro b l).titulo = l.titulo) ∧
    (∀ v, b.titulo = some (some v) → (mergeLivro b l).titulo = v) ∧
    (b.autor = none → (mergeLivro b l).autor = l.autor) ∧
    (∀ v, b.autor = some (some v) → (mergeLivro b l).autor = v) ∧
    (b.disponivel = none → (mergeLivro b l).disponivel = l.disponivel) ∧
    (∀ v, b.disponivel = some (some v) → (mergeLivro b l).disponivel = v) ∧
    (b.ano = none → (mergeLivro b l).ano = l.ano) ∧
    (∀ v, b.ano = some v → (mergeLivro b l).ano = v) ∧
    (b.genero = none → (mergeLivro b l).genero = l.genero) ∧
    (∀ v, b.genero = some v → (mergeLivro b l).genero = v) ∧
    (b.emprestadoPara = none → (mergeLivro b l).emprestadoPara = l.emprestadoPara) ∧
    (∀ v, b.emprestadoPara = some v → (mergeLivro b l).emprestadoPara = v) ∧
    (b.dataDevolucao = none → (mergeLivro b l).dataDevolucao = l.dataDevolucao) ∧
    (∀ v, b.dataDevolucao = some v → (mergeLivro b l).dataDevolucao = v) ∧
    (b.descricao = none → (mergeLivro b l).descricao = l.descricao) ∧
    (∀ v, b.descricao = some v → (mergeLivro b l).descricao = v) ∧
    (b.imagemUrl = none → (mergeLivro b l).imagemUrl = l.imagemUrl) ∧
    (∀ v, b.imagemUrl = some v → (mergeLivro b l).imagemUrl = v) ∧
    (b.linkDownload = none → (mergeLivro b l).linkDownload = l.linkDownload) ∧
    (∀ v, b.linkDownload = some v → (mergeLivro b l).linkDownload = v) := by
  have hab := applyBody_eq_merge b l ht ha hd
  refine ⟨by simp only [putLivro, hfind, hab], by simp only [patchLivro, hfind, hab], rfl,
    fun h => by simp only [mergeLivro, h],
    fun v hv => by simp only [mergeLivro, hv],
    fun h => by simp only [mergeLivro, h],
    fun v hv => by simp only [mergeLivro, hv],
    fun h => by simp only [mergeLivro, h],
    fun v hv => by simp only [mergeLivro, hv],
    fun h => by simp only [mergeLivro, h],
    fun v hv => by simp only [mergeLivro, hv],
    fun h => by simp only [mergeLivro, h],
    fun v hv => by simp only [mergeLivro, hv],
    fun h => by simp only [mergeLivro, h],
    fun v hv => by simp only [mergeLivro, hv],
    fun h => by simp only [mergeLivro, h],
    fun v hv => by simp only [mergeLivro, hv],
    fun h => by simp only [mergeLivro, h],
    fun v hv => by simp only [mergeLivro, hv],
    fun h => by simp only [mergeLivro, h],
    fun v hv => by simp only [mergeLivro, hv],
    fun h => by simp only [mergeLivro, h],
    fun v hv => by simp only [mergeLivro, hv]⟩

/-- **C3 (witness).** The merge theorem applied to a store holding one book with
`genero = "Fantasy"` and the payload `{disponivel: false}`. -/
theorem update_is_merge_witness :
    findByPk ⟨2, [⟨1, "T", "A", none, some "Fantasy", true, none, none, none, none, none⟩]⟩ 1 =
        some ⟨1, "T", "A", none, some "Fantasy", true, none, none, none, none, none⟩ ∧
    ({ disponivel := some (some false) } : LivroBody).titulo ≠ some none ∧
    ({ disponivel := some (some false) } : LivroBody).autor ≠ some none ∧
    ({ disponivel := some (some false) } : LivroBody).disponivel ≠ some none ∧
    (mergeLivro { disponivel := some (some false) }
        ⟨1, "T", "A", none, some "Fantasy", true, none, none, none, none, none⟩).genero = some "Fantasy" ∧
    (mergeLivro { disponivel := some (some false) }
        ⟨1, "T", "A", none, some "Fantasy", true, none, none, none, none, none⟩).disponivel = false ∧
    putLivro 1 { disponivel := some (some false) }
        ⟨2, [⟨1, "T", "A", none, some "Fantasy", true, none, none, none, none, none⟩]⟩ =
      (Resp.ok (mergeLivro { disponivel := some (some false) }
          ⟨1, "T", "A", none, some "Fantasy", true, none, none, none, none, none⟩),
        replaceRow ⟨2, [⟨1, "T", "A", none, some "Fantasy", true, none, none, none, none, none⟩]⟩ 1
          (mergeLivro { disponivel := some (some false) }
            ⟨1, "T", "A", none, some "Fantasy", true, none, none, none, none, none⟩)) :=
  ⟨by decide, by decide, by decide, by decide, by decide, by decide,
    (update_is_merge 1 { disponivel := some (some false) }
      ⟨2, [⟨1, "T", "A", none, some "Fantasy", true, none, none, none, none, none⟩]⟩
      ⟨1, "T", "A", none, some "Fantasy", true, none, none, none, none, none⟩
      (by decide) (by decide) (by decide) (by decide)).1⟩

/-! ### Create: round-trip and field pass-through -/

/-- **C7.** Creating a book with only a title and an author (over any well-formed
store) answers 201 with a record whose `disponivel` is `true`, whose `titulo`/`autor`
are the given values and whose optional fields (`ano`, `genero`, `emprestadoPara`,
`dataDevolucao`, `descricao`, `imagemUrl`, `linkDownload`) are all null — and fetching
the returned id from the resulting store yields exactly that record. -/
theorem create_roundtrip (t a : String) (s : Store) (hwf : WF s) :
    ∃ r s2, postLivros { titulo := some (some t), autor := some (some a) } s =
        (Resp.created r, s2) ∧
      r.titulo = t ∧ r.autor = a ∧ r.disponivel = true ∧
      r.ano = none ∧ r.genero = none ∧ r.emprestadoPara = none ∧ r.dataDevolucao = none ∧
      r.descricao = none ∧ r.imagemUrl = none ∧ r.linkDownload = none ∧
      getLivroById r.id s2 = Resp.ok r := by
  have key : postLivros { titulo := some (some t), autor := some (some a) } s =
      (Resp.created ⟨s.nextId, t, a, none, none, true, none, none, none, none, none⟩,
        ⟨s.nextId + 1, s.rows ++ [⟨s.nextId, t, a, none, none, true, none, none, none, none, none⟩]⟩) := by
    rfl
  refine ⟨⟨s.nextId, t, a, none, none, true, none, none, none, none, none⟩,
    ⟨s.nextId + 1, s.rows ++ [⟨s.nextId, t, a, none, none, true, none, none, none, none, none⟩]⟩,
    key, rfl, rfl, rfl, rfl, rfl, rfl, rfl, rfl, rfl, rfl, ?_⟩
  have hfind : findByPk
      ⟨s.nextId + 1, s.rows ++ [⟨s.nextId, t, a, none, none, true, none, none, none, none, none⟩]⟩
      s.nextId =
      some ⟨s.nextId, t, a, none, none, true, none, none, none, none, none⟩ := by
    rw [findByPk, List.find?_append]
    have h1 : s.rows.find? (fun x => x.id == s.nextId) = none := by
      refine List.find?_eq_none.mpr (fun x hx => ?_)
      have := hwf x hx
      simp only [beq_iff_eq]
      omega
    rw [h1]
    simp [List.find?]
  simp only [getLivroById, hfind]

/-- **C7 (witness).** The round-trip theorem applied to `{title: "1984",
author: "George Orwell"}` on the empty store. -/
theorem create_roundtrip_witness :
    WF ⟨1, []⟩ ∧
    (∃ r s2, postLivros { titulo := some (some "1984"), autor := some (some "George Orwell") } ⟨1, []⟩ =
        (Resp.created r, s2) ∧
      r.titulo = "1984" ∧ r.autor = "George Orwell" ∧ r.disponivel = true ∧
      r.ano = none ∧ r.genero = none ∧ r.emprestadoPara = none ∧ r.dataDevolucao = none ∧
      r.descricao = none ∧ r.imagemUrl = none ∧ r.linkDownload = none ∧
      getLivroById r.id s2 = Resp.ok r) :=
  ⟨by decide, create_roundtrip "1984" "George Orwell" ⟨1, []⟩ (by decide)⟩

/-- **C10.** Create passes every supplied field of the payload through to the stored
and returned record unchanged (`titulo`, `autor`, and each optional column, whose
stored value is exactly the body field's resolved value), and the `disponivel` default
`true` applies only when that field is absent: a payload explicitly carrying
`disponivel: false` is stored and returned with `disponivel = false`. -/
theorem create_passthrough (b : LivroBody) (s : Store) (t a : String)
    (ht : b.titulo = some (some t)) (ha : b.autor = some (some a))
    (hd : b.disponivel ≠ some none) :
    ∃ r, postLivros b s = (Resp.created r, ⟨s.nextId + 1, s.rows ++ [r]⟩) ∧
      r.id = s.nextId ∧ r.titulo = t ∧ r.autor = a ∧
      (b.disponivel = none → r.disponivel = true) ∧
      (∀ v, b.disponivel = some (some v) → r.disponivel = v) ∧
      r.ano = b.ano.join ∧ r.genero = b.genero.join ∧
      r.emprestadoPara = b.emprestadoPara.join ∧ r.dataDevolucao = b.dataDevolucao.join ∧
      r.descricao = b.descricao.join ∧ r.imagemUrl = b.imagemUrl.join ∧
      r.linkDownload = b.linkDownload.join := by
  obtain ⟨bt, ba, ban, bg, bd, be, bdd, bde, bi, blk⟩ := b
  simp only at ht ha hd ⊢
  subst ht
  subst ha
  rcases bd with _ | ⟨_ | d⟩
  · exact ⟨⟨s.nextId, t, a, ban.join, bg.join, true, be.join, bdd.join, bde.join,
      bi.join, blk.join⟩, by rfl, rfl, rfl, rfl, fun _ => rfl,
      fun v hv => Option.noConfusion hv, rfl, rfl, rfl, rfl, rfl, rfl, rfl⟩
  · exact absurd rfl hd
  · exact ⟨⟨s.nextId, t, a, ban.join, bg.join, d, be.join, bdd.join, bde.join,
      bi.join, blk.join⟩, by rfl, rfl, rfl, rfl, fun hn => Option.noConfusion hn,
      fun v hv => by
        rw [Option.some.injEq, Option.some.injEq] at hv
        rw [hv],
      rfl, rfl, rfl, rfl, rfl, rfl, rfl⟩
/-- **C10 (witness).** The pass-through theorem applied to a payload explicitly
carrying `disponivel: false`. -/
theorem create_passthrough_witness :
    bodyTAFalse.titulo = some (some "T") ∧
    bodyTAFalse.autor = some (some "A") ∧
    bodyTAFalse.disponivel ≠ some none ∧
    (∃ r, postLivros bodyTAFalse ⟨1, []⟩ = (Resp.created r, ⟨2, [] ++ [r]⟩) ∧
      r.id = 1 ∧ r.titulo = "T" ∧ r.autor = "A" ∧
      (bodyTAFalse.disponivel = none → r.disponivel = true) ∧
      (∀ v, bodyTAFalse.disponivel = some (some v) → r.disponivel = v) ∧
      r.ano = bodyTAFalse.ano.join ∧ r.genero = bodyTAFalse.genero.join ∧
      r.emprestadoPara = bodyTAFalse.emprestadoPara.join ∧
      r.dataDevolucao = bodyTAFalse.dataDevolucao.join ∧
      r.descricao = bodyTAFalse.descricao.join ∧ r.imagemUrl = bodyTAFalse.imagemUrl.join ∧
      r.linkDownload = bodyTAFalse.linkDownload.join) :=
  ⟨by decide, by decide, by decide,
    create_passthrough bodyTAFalse ⟨1, []⟩ "T" "A" rfl rfl (by decide)⟩
